import Mathlib

/-!
Shallow embedding of the Activity Aggregation & Dashboard Composition Engine
of the `crm` backend (Go).  The embedded code is `userService.GetUserStats`,
`userService.GetRecentActivities`, `userService.GetDashboardData` and their
helper functions (`createActivityFrom*`, `truncateString`,
`sortActivitiesByDate`) from `internal/services/user_service.go`, together
with the data model from `internal/models` that those functions touch.

Modelling conventions:
- `time.Time` is modelled as a count of nanoseconds (`GoTime`, one `Int`
  field); `time.Time.After` and `time.Time.Add` are the strict order and
  translation on that count, and `time.Minute` is 60e9 nanoseconds.
- Go strings are modelled as `List Char` (`GoStr`); the Go string-typed
  enumerations (`TaskStatus`, `ProjectStatus`, `ContactType`,
  `InteractionType`, `Priority`, `ActivityType`, `ActivityAction`) stay
  strings, with the source's named constants, so that the source's
  `switch`/`==` comparisons keep their exact semantics (including the
  reachable `default` branches).
- The repositories are external data sources (the spec's §4.1 collaborator
  contract); each is modelled as a record of query functions returning
  `Except RepoErr _`, where `RepoErr.err` stands for an arbitrary non-nil
  Go error (these code paths never inspect the error beyond nil-ness).
- Fallible service calls return `Except AppError _`; `AppError.internalServer`
  is `errors.ErrInternalServer`.  A Go nil-interface method call (possible
  in `GetRecentActivities` when a repository field is nil) would panic; that
  outcome is modelled by the distinguished `AppError.nilRepoPanic` value and
  is unreachable whenever all repositories are present.
- Machine integers (`int`, `int64`) are modelled as `Int`; none of the
  embedded arithmetic can overflow in a way any claim depends on, since the
  only operations are count subtraction and doubling a small limit.
-/

namespace CRM

/-- Go `time.Time`, reduced to its nanosecond count. -/
structure GoTime where
  ns : Int
  deriving DecidableEq, Repr

/-- Go `t.After(u)`: strictly later. -/
def GoTime.After (t u : GoTime) : Bool := decide (u.ns < t.ns)

/-- Go `t.Add(d)` for a duration of `d` nanoseconds. -/
def GoTime.Add (t : GoTime) (d : Int) : GoTime := ⟨t.ns + d⟩

/-- Go `time.Minute` in nanoseconds. -/
def timeMinute : Int := 60 * 1000000000

/-- A Go string, as its character sequence. -/
abbrev GoStr := List Char

/-- `models.ContactType` (a Go string type). -/
abbrev ContactType := GoStr

def ContactTypeClient : ContactType := "CLIENT".toList

def ContactTypeLead : ContactType := "LEAD".toList

/-- `models.TaskStatus` (a Go string type). -/
abbrev TaskStatus := GoStr

def TaskStatusPending : TaskStatus := "PENDING".toList

def TaskStatusCompleted : TaskStatus := "COMPLETED".toList

/-- `models.ProjectStatus` (a Go string type). -/
abbrev ProjectStatus := GoStr

def ProjectStatusInProgress : ProjectStatus := "IN_PROGRESS".toList

def ProjectStatusCompleted : ProjectStatus := "COMPLETED".toList

def ProjectStatusCancelled : ProjectStatus := "CANCELLED".toList

/-- `models.InteractionType` (a Go string type). -/
abbrev InteractionType := GoStr

/-- `models.Priority` (a Go string type). -/
abbrev Priority := GoStr

/-- `models.ActivityType` (a Go string type). -/
abbrev ActivityType := GoStr

def ActivityTypeTask : ActivityType := "TASK".toList

def ActivityTypeProject : ActivityType := "PROJECT".toList

def ActivityTypeContact : ActivityType := "CONTACT".toList

def ActivityTypeInteraction : ActivityType := "INTERACTION".toList

/-- `models.ActivityAction` (a Go string type). -/
abbrev ActivityAction := GoStr

def ActionCreated : ActivityAction := "CREATED".toList

def ActionUpdated : ActivityAction := "UPDATED".toList

def ActionCompleted : ActivityAction := "COMPLETED".toList

def ActionDeleted : ActivityAction := "DELETED".toList

def ActionStarted : ActivityAction := "STARTED".toList

def ActionCancelled : ActivityAction := "CANCELLED".toList

/-- `models.Contact`.  The gorm soft-delete column and the reverse
relationship slices (`User`, `Interactions`, `Tasks`, `Projects`), which the
embedded engine never reads, are omitted. -/
structure Contact where
  ID : Nat
  Name : GoStr
  Email : GoStr
  Phone : GoStr
  Company : GoStr
  Position : GoStr
  «Type» : ContactType
  Notes : GoStr
  UserID : Nat
  CreatedAt : GoTime
  UpdatedAt : GoTime
  deriving DecidableEq, Repr

/-- `models.Interaction` (with its eagerly loaded `Contact`). -/
structure Interaction where
  ID : Nat
  «Type» : InteractionType
  Date : GoTime
  Subject : GoStr
  Description : GoStr
  ContactID : Nat
  CreatedAt : GoTime
  UpdatedAt : GoTime
  Contact : Contact
  deriving DecidableEq, Repr

/-- `models.Project` (with its eagerly loaded `Client`; the `User` and
`Tasks` relations are never read by the engine and are omitted). -/
structure Project where
  ID : Nat
  Name : GoStr
  Description : GoStr
  Status : ProjectStatus
  UserID : Nat
  ClientID : Nat
  CreatedAt : GoTime
  UpdatedAt : GoTime
  Client : Contact
  deriving DecidableEq, Repr

/-- `models.Task` (with its optionally loaded `Contact` and `Project`
pointers; the `User` relation is never read by the engine and is omitted). -/
structure Task where
  ID : Nat
  Title : GoStr
  Description : GoStr
  DueDate : Option GoTime
  Priority : Priority
  Status : TaskStatus
  UserID : Nat
  ContactID : Option Nat
  ProjectID : Option Nat
  CreatedAt : GoTime
  UpdatedAt : GoTime
  Contact : Option Contact
  Project : Option Project
  deriving DecidableEq, Repr

/-- `models.UserActivity`. -/
structure UserActivity where
  ID : Nat
  «Type» : ActivityType
  Action : ActivityAction
  Title : GoStr
  Detail : GoStr
  ItemID : Nat
  CreatedAt : GoTime
  UpdatedAt : GoTime
  RelatedID : Option Nat
  RelatedName : Option GoStr
  deriving DecidableEq, Repr

/-- `models.RecentActivityResponse`. -/
structure RecentActivityResponse where
  Activities : List UserActivity
  Count : Int
  deriving DecidableEq, Repr

/-- `services.UserStats`. -/
structure UserStats where
  TotalContacts : Int
  TotalClients : Int
  TotalLeads : Int
  TotalTasks : Int
  PendingTasks : Int
  CompletedTasks : Int
  OverdueTasks : Int
  TotalProjects : Int
  ActiveProjects : Int
  CompletedProjects : Int
  TotalInteractions : Int
  RecentInteractions : Int
  deriving DecidableEq, Repr

/-- The Go composite literal `&UserStats{RecentInteractions: 0, OverdueTasks: 0}`:
every field is the `int64` zero value (the two named fields are initialised
explicitly in the source, to the same zero). -/
def userStatsInit : UserStats :=
  { TotalContacts := 0, TotalClients := 0, TotalLeads := 0, TotalTasks := 0,
    PendingTasks := 0, CompletedTasks := 0, OverdueTasks := 0,
    TotalProjects := 0, ActiveProjects := 0, CompletedProjects := 0,
    TotalInteractions := 0, RecentInteractions := 0 }

/-- `models.InteractionListFilter`. -/
structure InteractionListFilter where
  «Type» : InteractionType
  DateFrom : Option GoTime
  DateTo : Option GoTime
  ContactID : Nat
  Limit : Int
  Offset : Int
  deriving DecidableEq, Repr

/-- The zero value `models.InteractionListFilter{}`. -/
def interactionListFilterZero : InteractionListFilter :=
  { «Type» := [], DateFrom := none, DateTo := none, ContactID := 0, Limit := 0, Offset := 0 }

/-- `models.TaskListFilter`. -/
structure TaskListFilter where
  Status : TaskStatus
  Priority : Priority
  ContactID : Option Nat
  ProjectID : Option Nat
  DueBefore : Option GoTime
  DueAfter : Option GoTime
  Limit : Int
  Offset : Int
  deriving DecidableEq, Repr

/-- The zero value `models.TaskListFilter{}`. -/
def taskListFilterZero : TaskListFilter :=
  { Status := [], Priority := [], ContactID := none, ProjectID := none,
    DueBefore := none, DueAfter := none, Limit := 0, Offset := 0 }

/-- `models.ProjectListFilter`. -/
structure ProjectListFilter where
  Status : ProjectStatus
  ClientID : Option Nat
  Limit : Int
  Offset : Int
  deriving DecidableEq, Repr

/-- The zero value `models.ProjectListFilter{}`. -/
def projectListFilterZero : ProjectListFilter :=
  { Status := [], ClientID := none, Limit := 0, Offset := 0 }

/-- `models.ContactListFilter`. -/
structure ContactListFilter where
  «Type» : ContactType
  Search : GoStr
  Limit : Int
  Offset : Int
  deriving DecidableEq, Repr

/-- The zero value `models.ContactListFilter{}`. -/
def contactListFilterZero : ContactListFilter :=
  { «Type» := [], Search := [], Limit := 0, Offset := 0 }

/-- `services.DashboardProject`. -/
structure DashboardProject where
  ID : Nat
  Name : GoStr
  Status : ProjectStatus
  ClientName : GoStr
  CreatedAt : GoTime
  deriving DecidableEq, Repr

/-- `services.DashboardInteraction`. -/
structure DashboardInteraction where
  ID : Nat
  «Type» : InteractionType
  Subject : GoStr
  ContactName : GoStr
  Date : GoTime
  deriving DecidableEq, Repr

/-- `services.DashboardTask`. -/
structure DashboardTask where
  ID : Nat
  Title : GoStr
  Priority : Priority
  DueDate : Option GoTime
  ContactName : GoStr
  ProjectName : GoStr
  deriving DecidableEq, Repr

/-- `services.DashboardContact`. -/
structure DashboardContact where
  ID : Nat
  Name : GoStr
  Email : GoStr
  «Type» : ContactType
  Company : GoStr
  CreatedAt : GoTime
  deriving DecidableEq, Repr

/-- `services.DashboardData`. -/
structure DashboardData where
  Stats : UserStats
  RecentActivities : List UserActivity
  RecentProjects : List DashboardProject
  RecentInteractions : List DashboardInteraction
  RecentPendingTasks : List DashboardTask
  RecentContacts : List DashboardContact
  deriving DecidableEq, Repr

/-- An arbitrary non-nil Go `error` returned by a repository query. -/
inductive RepoErr
  | err
  deriving DecidableEq, Repr

/-- The service-level errors these code paths can produce:
`errors.ErrInternalServer`, plus the distinguished `nilRepoPanic` outcome
standing for the Go panic raised by a method call on a nil repository
interface (see the file header). -/
inductive AppError
  | internalServer
  | nilRepoPanic
  deriving DecidableEq, Repr

/-- `repositories.ContactRepository`, restricted to the queries the embedded
engine issues (the CRUD methods it never calls are omitted). -/
structure ContactRepository where
  CountByUserID : Nat → Except RepoErr Int
  CountByType : Nat → ContactType → Except RepoErr Int
  GetByUserID : Nat → ContactListFilter → Except RepoErr (List Contact)

/-- `repositories.TaskRepository`, restricted to the queries the embedded
engine issues.  `CountOverdueByUserID` is declared by its call site in
`GetUserStats`; like every other query it is part of the external data-source
contract. -/
structure TaskRepository where
  CountByUserID : Nat → Except RepoErr Int
  CountPendingByUserID : Nat → Except RepoErr Int
  CountOverdueByUserID : Nat → Except RepoErr Int
  GetByUserID : Nat → TaskListFilter → Except RepoErr (List Task)

/-- `repositories.ProjectRepository`, restricted to the queries the embedded
engine issues. -/
structure ProjectRepository where
  CountByUserID : Nat → Except RepoErr Int
  CountByStatus : Nat → ProjectStatus → Except RepoErr Int
  GetByUserID : Nat → ProjectListFilter → Except RepoErr (List Project)

/-- `repositories.InteractionRepository`, restricted to the queries the
embedded engine issues. -/
structure InteractionRepository where
  GetByUserID : Nat → InteractionListFilter → Except RepoErr (List Interaction)
  GetRecentByUserID : Nat → Int → Int → Except RepoErr (List Interaction)

/-- `services.userService`.  Go interface fields can be nil, hence `Option`;
the `userRepo` field is never read by the embedded operations and is
omitted. -/
structure userService where
  contactRepo : Option ContactRepository
  taskRepo : Option TaskRepository
  projectRepo : Option ProjectRepository
  interactionRepo : Option InteractionRepository

/-- `truncateString` from `user_service.go`; every call site passes
`maxLength = 100`. -/
def truncateString (s : GoStr) (maxLength : Nat) : GoStr :=
  if s.length ≤ maxLength then s
  else s.take (maxLength - 3) ++ "...".toList

/-- `createActivityFromInteraction` from `user_service.go`. -/
def createActivityFromInteraction (interaction : Interaction) : UserActivity :=
  let title := if interaction.Subject = [] then "Interação sem assunto".toList
               else interaction.Subject
  let contactID := interaction.ContactID
  let activity : UserActivity :=
    { ID := interaction.ID, «Type» := ActivityTypeInteraction, Action := ActionCreated,
      Title := title, Detail := truncateString interaction.Description 100,
      ItemID := interaction.ID, CreatedAt := interaction.CreatedAt,
      UpdatedAt := interaction.UpdatedAt, RelatedID := some contactID,
      RelatedName := none }
  if interaction.Contact.Name ≠ [] then
    { activity with RelatedName := some interaction.Contact.Name }
  else activity

/-- The `else if` branch of `createActivityFromTask`'s association
resolution: fall back to the project association. -/
def taskProjectAssociation (task : Task) (activity : UserActivity) : UserActivity :=
  match task.ProjectID, task.Project with
  | some projectID, some project =>
      if project.Name ≠ [] then
        { activity with RelatedID := some projectID, RelatedName := some project.Name }
      else activity
  | _, _ => activity

/-- `createActivityFromTask` from `user_service.go`. -/
def createActivityFromTask (task : Task) : UserActivity :=
  let action := if task.Status = TaskStatusCompleted then ActionCompleted else ActionCreated
  let title := if task.Title = [] then "Tarefa sem título".toList else task.Title
  let activity : UserActivity :=
    { ID := task.ID, «Type» := ActivityTypeTask, Action := action,
      Title := title, Detail := truncateString task.Description 100,
      ItemID := task.ID, CreatedAt := task.CreatedAt, UpdatedAt := task.UpdatedAt,
      RelatedID := none, RelatedName := none }
  match task.ContactID, task.Contact with
  | some contactID, some contact =>
      if contact.Name ≠ [] then
        { activity with RelatedID := some contactID, RelatedName := some contact.Name }
      else taskProjectAssociation task activity
  | _, _ => taskProjectAssociation task activity

/-- `createActivityFromProject` from `user_service.go` (the `switch` on a Go
string compares sequentially, with a reachable `default`). -/
def createActivityFromProject (project : Project) : UserActivity :=
  let action :=
    if project.Status = ProjectStatusInProgress then ActionStarted
    else if project.Status = ProjectStatusCompleted then ActionCompleted
    else if project.Status = ProjectStatusCancelled then ActionCancelled
    else ActionCreated
  let title := if project.Name = [] then "Projeto sem nome".toList else project.Name
  let activity : UserActivity :=
    { ID := project.ID, «Type» := ActivityTypeProject, Action := action,
      Title := title, Detail := truncateString project.Description 100,
      ItemID := project.ID, CreatedAt := project.CreatedAt,
      UpdatedAt := project.UpdatedAt, RelatedID := none, RelatedName := none }
  if project.ClientID ≠ 0 ∧ project.Client.Name ≠ [] then
    { activity with RelatedID := some project.ClientID,
                    RelatedName := some project.Client.Name }
  else activity

/-- `createActivityFromContact` from `user_service.go`. -/
def createActivityFromContact (contact : Contact) : UserActivity :=
  let title := if contact.Name = [] then "Contato sem nome".toList else contact.Name
  { ID := contact.ID, «Type» := ActivityTypeContact, Action := ActionCreated,
    Title := title, Detail := truncateString contact.Notes 100,
    ItemID := contact.ID, CreatedAt := contact.CreatedAt,
    UpdatedAt := contact.UpdatedAt, RelatedID := none, RelatedName := none }

/-- Body of the interactions loop of `GetRecentActivities`: the events one
interaction record appends. -/
def interactionEvents (interaction : Interaction) : List UserActivity :=
  let createActivity := createActivityFromInteraction interaction
  let activities := [createActivity]
  if interaction.UpdatedAt.After (interaction.CreatedAt.Add timeMinute) then
    activities ++ [{ createActivity with
        Action := ActionUpdated,
        CreatedAt := interaction.UpdatedAt,
        UpdatedAt := interaction.UpdatedAt }]
  else activities

/-- Body of the tasks loop of `GetRecentActivities`: the events one task
record appends.  Note the source overrides the `Action` of the creation
event to `ActionCreated` even when `createActivityFromTask` chose
`ActionCompleted`. -/
def taskEvents (task : Task) : List UserActivity :=
  let createActivity := { createActivityFromTask task with Action := ActionCreated }
  let activities := [createActivity]
  let activities :=
    if task.UpdatedAt.After (task.CreatedAt.Add timeMinute) then
      activities ++ [{ createActivity with
          Action := ActionUpdated,
          CreatedAt := task.UpdatedAt, UpdatedAt := task.UpdatedAt }]
    else activities
  if task.Status = TaskStatusCompleted then
    activities ++ [{ createActivity with
        Action := ActionCompleted,
        CreatedAt := task.UpdatedAt, UpdatedAt := task.UpdatedAt }]
  else activities

/-- Body of the projects loop of `GetRecentActivities`: the events one
project record appends. -/
def projectEvents (project : Project) : List UserActivity :=
  let createActivity := { createActivityFromProject project with Action := ActionCreated }
  let activities := [createActivity]
  if project.UpdatedAt.After (project.CreatedAt.Add timeMinute) then
    let action :=
      if project.Status = ProjectStatusInProgress then ActionStarted
      else if project.Status = ProjectStatusCompleted then ActionCompleted
      else if project.Status = ProjectStatusCancelled then ActionCancelled
      else ActionUpdated
    activities ++ [{ createActivity with
        Action := action,
        CreatedAt := project.UpdatedAt, UpdatedAt := project.UpdatedAt }]
  else activities

/-- Body of the contacts loop of `GetRecentActivities`: the events one
contact record appends. -/
def contactEvents (contact : Contact) : List UserActivity :=
  let createActivity := createActivityFromContact contact
  let activities := [createActivity]
  if contact.UpdatedAt.After (contact.CreatedAt.Add timeMinute) then
    activities ++ [{ createActivity with
        Action := ActionUpdated,
        CreatedAt := contact.UpdatedAt, UpdatedAt := contact.UpdatedAt }]
  else activities

/-- The order imposed by `sortActivitiesByDate`: most recent first.  It is
the complement of the source comparator
`activities[i].CreatedAt.After(activities[j].CreatedAt)`. -/
def recentFirst (a b : UserActivity) : Prop :=
  b.CreatedAt.ns ≤ a.CreatedAt.ns

instance : DecidableRel recentFirst :=
  fun a b => inferInstanceAs (Decidable (b.CreatedAt.ns ≤ a.CreatedAt.ns))

/-- `sortActivitiesByDate` from `user_service.go`.  The source calls Go's
`sort.Slice` with the strict comparator `a.CreatedAt.After(b.CreatedAt)`;
its documented contract is that the result is a permutation of the input
sorted by the comparator, and it is explicitly NOT guaranteed to be stable.
The contract is realised here by insertion sort; which permutation
`sort.Slice` picks among equal keys is toolchain-defined and not pinned by
this repository. -/
def sortActivitiesByDate (activities : List UserActivity) : List UserActivity :=
  List.insertionSort recentFirst activities

/-- Tail of `GetRecentActivities`: sort, cut to `limit`, wrap in the
response (its `Count` is `len(activities)` of the cut list). -/
def assembleRecentActivities (limit : Int) (activities : List UserActivity) :
    RecentActivityResponse :=
  let activities := sortActivitiesByDate activities
  let activities :=
    if (activities.length : Int) > limit then activities.take limit.toNat
    else activities
  { Activities := activities, Count := (activities.length : Int) }

/-- The contacts block of `GetUserStats` (`// Total de contatos`). -/
def contactStatsStep (contactRepo : Option ContactRepository) (userID : Nat)
    (stats : UserStats) : Except AppError UserStats :=
  match contactRepo with
  | none => Except.ok stats
  | some repo =>
    match repo.CountByUserID userID with
    | Except.error _ => Except.error AppError.internalServer
    | Except.ok totalContacts =>
    match repo.CountByType userID ContactTypeClient with
    | Except.error _ => Except.error AppError.internalServer
    | Except.ok clients =>
    match repo.CountByType userID ContactTypeLead with
    | Except.error _ => Except.error AppError.internalServer
    | Except.ok leads =>
      Except.ok { stats with TotalContacts := totalContacts,
                             TotalClients := clients, TotalLeads := leads }

/-- The tasks block of `GetUserStats` (`// Estatísticas de tarefas`):
the overdue count alone degrades to zero on failure. -/
def taskStatsStep (taskRepo : Option TaskRepository) (userID : Nat)
    (stats : UserStats) : Except AppError UserStats :=
  match taskRepo with
  | none => Except.ok stats
  | some repo =>
    match repo.CountByUserID userID with
    | Except.error _ => Except.error AppError.internalServer
    | Except.ok totalTasks =>
    match repo.CountPendingByUserID userID with
    | Except.error _ => Except.error AppError.internalServer
    | Except.ok pendingTasks =>
      let stats := { stats with TotalTasks := totalTasks,
                                PendingTasks := pendingTasks,
                                CompletedTasks := totalTasks - pendingTasks }
      match repo.CountOverdueByUserID userID with
      | Except.error _ => Except.ok { stats with OverdueTasks := 0 }
      | Except.ok overdueTasks => Except.ok { stats with OverdueTasks := overdueTasks }

/-- The projects block of `GetUserStats` (`// Estatísticas de projetos`). -/
def projectStatsStep (projectRepo : Option ProjectRepository) (userID : Nat)
    (stats : UserStats) : Except AppError UserStats :=
  match projectRepo with
  | none => Except.ok stats
  | some repo =>
    match repo.CountByUserID userID with
    | Except.error _ => Except.error AppError.internalServer
    | Except.ok totalProjects =>
    match repo.CountByStatus userID ProjectStatusInProgress with
    | Except.error _ => Except.error AppError.internalServer
    | Except.ok activeProjects =>
    match repo.CountByStatus userID ProjectStatusCompleted with
    | Except.error _ => Except.error AppError.internalServer
    | Except.ok completedProjects =>
      Except.ok { stats with TotalProjects := totalProjects,
                             ActiveProjects := activeProjects,
                             CompletedProjects := completedProjects }

/-- The interactions block of `GetUserStats` (`// Total de interações`):
the recent-interactions count alone degrades to zero on failure. -/
def interactionStatsStep (interactionRepo : Option InteractionRepository)
    (userID : Nat) (stats : UserStats) : Except AppError UserStats :=
  match interactionRepo with
  | none => Except.ok stats
  | some repo =>
    match repo.GetByUserID userID interactionListFilterZero with
    | Except.error _ => Except.error AppError.internalServer
    | Except.ok interactions =>
      let stats := { stats with TotalInteractions := (interactions.length : Int) }
      match repo.GetRecentByUserID userID 7 100 with
      | Except.error _ => Except.ok { stats with RecentInteractions := 0 }
      | Except.ok recentInteractions =>
          Except.ok { stats with RecentInteractions := (recentInteractions.length : Int) }

/-- `userService.GetUserStats` from `user_service.go`, the four commented
blocks of the source in source order. -/
def userService.GetUserStats (s : userService) (userID : Nat) :
    Except AppError UserStats :=
  match contactStatsStep s.contactRepo userID userStatsInit with
  | Except.error e => Except.error e
  | Except.ok stats =>
  match taskStatsStep s.taskRepo userID stats with
  | Except.error e => Except.error e
  | Except.ok stats =>
  match projectStatsStep s.projectRepo userID stats with
  | Except.error e => Except.error e
  | Except.ok stats =>
  match interactionStatsStep s.interactionRepo userID stats with
  | Except.error e => Except.error e
  | Except.ok stats => Except.ok stats

/-- `userService.GetRecentActivities` from `user_service.go`.  A nil
repository field would make the Go code panic on the method call; that case
is the `nilRepoPanic` outcome (see the file header). -/
def userService.GetRecentActivities (s : userService) (userID : Nat)
    (limit : Int) : Except AppError RecentActivityResponse :=
  let limit := if limit ≤ 0 then (20 : Int) else limit
  match s.interactionRepo, s.taskRepo, s.projectRepo, s.contactRepo with
  | some interactionRepo, some taskRepo, some projectRepo, some contactRepo =>
    match interactionRepo.GetRecentByUserID userID 30 (limit * 2) with
    | Except.error _ => Except.error AppError.internalServer
    | Except.ok interactions =>
    match taskRepo.GetByUserID userID { taskListFilterZero with Limit := limit * 2 } with
    | Except.error _ => Except.error AppError.internalServer
    | Except.ok tasks =>
    match projectRepo.GetByUserID userID { projectListFilterZero with Limit := limit * 2 } with
    | Except.error _ => Except.error AppError.internalServer
    | Except.ok projects =>
    match contactRepo.GetByUserID userID { contactListFilterZero with Limit := limit * 2 } with
    | Except.error _ => Except.error AppError.internalServer
    | Except.ok contacts =>
      Except.ok (assembleRecentActivities limit
        (interactions.flatMap interactionEvents ++ tasks.flatMap taskEvents ++
         projects.flatMap projectEvents ++ contacts.flatMap contactEvents))
  | _, _, _, _ => Except.error AppError.nilRepoPanic

/-- The recent-interactions block of `GetDashboardData` (step 3;
a failing query leaves the list empty). -/
def dashboardInteractionsStep (interactionRepo : Option InteractionRepository)
    (userID : Nat) (d : DashboardData) : DashboardData :=
  match interactionRepo with
  | none => d
  | some repo =>
    match repo.GetByUserID userID { interactionListFilterZero with Limit := 5 } with
    | Except.error _ => d
    | Except.ok recentInteractions =>
        { d with RecentInteractions := recentInteractions.map fun interaction =>
            { ID := interaction.ID, «Type» := interaction.«Type»,
              Subject := interaction.Subject,
              ContactName := interaction.Contact.Name, Date := interaction.Date } }

/-- The active-projects block of `GetDashboardData` (step 3; the source
passes the literal status string `"IN_PROGRESS"`). -/
def dashboardProjectsStep (projectRepo : Option ProjectRepository)
    (userID : Nat) (d : DashboardData) : DashboardData :=
  match projectRepo with
  | none => d
  | some repo =>
    match repo.GetByUserID userID
        { projectListFilterZero with Status := "IN_PROGRESS".toList, Limit := 5 } with
    | Except.error _ => d
    | Except.ok activeProjects =>
        { d with RecentProjects := activeProjects.map fun project =>
            { ID := project.ID, Name := project.Name, Status := project.Status,
              ClientName := project.Client.Name, CreatedAt := project.CreatedAt } }

/-- The pending-tasks block of `GetDashboardData` (step 3). -/
def dashboardTasksStep (taskRepo : Option TaskRepository) (userID : Nat)
    (d : DashboardData) : DashboardData :=
  match taskRepo with
  | none => d
  | some repo =>
    match repo.GetByUserID userID
        { taskListFilterZero with Status := TaskStatusPending, Limit := 5 } with
    | Except.error _ => d
    | Except.ok pendingTasks =>
        { d with RecentPendingTasks := pendingTasks.map fun task =>
            let dashboardTask : DashboardTask :=
              { ID := task.ID, Title := task.Title, Priority := task.Priority,
                DueDate := task.DueDate, ContactName := [], ProjectName := [] }
            let dashboardTask :=
              match task.Contact with
              | some contact => { dashboardTask with ContactName := contact.Name }
              | none => dashboardTask
            match task.Project with
            | some project => { dashboardTask with ProjectName := project.Name }
            | none => dashboardTask }

/-- The recent-contacts block of `GetDashboardData` (step 3). -/
def dashboardContactsStep (contactRepo : Option ContactRepository)
    (userID : Nat) (d : DashboardData) : DashboardData :=
  match contactRepo with
  | none => d
  | some repo =>
    match repo.GetByUserID userID { contactListFilterZero with Limit := 5 } with
    | Except.error _ => d
    | Except.ok contacts =>
        { d with RecentContacts := contacts.map fun contact =>
            { ID := contact.ID, Name := contact.Name, Email := contact.Email,
              «Type» := contact.«Type», Company := contact.Company,
              CreatedAt := contact.CreatedAt } }

/-- `userService.GetDashboardData` from `user_service.go`: steps 1 and 2
propagate their error; the four step-3 blocks run in source order
(interactions, projects, tasks, contacts), each degrading to an empty list
on failure. -/
def userService.GetDashboardData (s : userService) (userID : Nat) :
    Except AppError DashboardData :=
  match s.GetUserStats userID with
  | Except.error e => Except.error e
  | Except.ok stats =>
  match s.GetRecentActivities userID 10 with
  | Except.error e => Except.error e
  | Except.ok recentActivitiesResponse =>
    let dashboardData : DashboardData :=
      { Stats := stats,
        RecentActivities := recentActivitiesResponse.Activities,
        RecentProjects := [], RecentInteractions := [],
        RecentPendingTasks := [], RecentContacts := [] }
    let dashboardData := dashboardInteractionsStep s.interactionRepo userID dashboardData
    let dashboardData := dashboardProjectsStep s.projectRepo userID dashboardData
    let dashboardData := dashboardTasksStep s.taskRepo userID dashboardData
    let dashboardData := dashboardContactsStep s.contactRepo userID dashboardData
    Except.ok dashboardData

/-! Concrete environments (repository instantiations) used to evaluate the
engine at specific inputs. -/

/-- A contact source that answers every query successfully with no data. -/
def emptyContactRepository : ContactRepository :=
  { CountByUserID := fun _ => Except.ok 0,
    CountByType := fun _ _ => Except.ok 0,
    GetByUserID := fun _ _ => Except.ok [] }

/-- A task source that answers every query successfully with no data. -/
def emptyTaskRepository : TaskRepository :=
  { CountByUserID := fun _ => Except.ok 0,
    CountPendingByUserID := fun _ => Except.ok 0,
    CountOverdueByUserID := fun _ => Except.ok 0,
    GetByUserID := fun _ _ => Except.ok [] }

/-- A project source that answers every query successfully with no data. -/
def emptyProjectRepository : ProjectRepository :=
  { CountByUserID := fun _ => Except.ok 0,
    CountByStatus := fun _ _ => Except.ok 0,
    GetByUserID := fun _ _ => Except.ok [] }

/-- An interaction source that answers every query successfully with no data. -/
def emptyInteractionRepository : InteractionRepository :=
  { GetByUserID := fun _ _ => Except.ok [],
    GetRecentByUserID := fun _ _ _ => Except.ok [] }

/-- A service over four healthy, empty sources. -/
def svcEmpty : userService :=
  { contactRepo := some emptyContactRepository,
    taskRepo := some emptyTaskRepository,
    projectRepo := some emptyProjectRepository,
    interactionRepo := some emptyInteractionRepository }

/-- A contact source whose total-count query fails (other queries healthy). -/
def contactRepoFailingCount : ContactRepository :=
  { CountByUserID := fun _ => Except.error RepoErr.err,
    CountByType := fun _ _ => Except.ok 0,
    GetByUserID := fun _ _ => Except.ok [] }

/-- A service whose contact total-count query fails and whose every other
query succeeds. -/
def svcContactCountFailure : userService :=
  { svcEmpty with contactRepo := some contactRepoFailingCount }

/-- A task source whose overdue-count query fails (other queries healthy). -/
def taskRepoFailingOverdue : TaskRepository :=
  { CountByUserID := fun _ => Except.ok 7,
    CountPendingByUserID := fun _ => Except.ok 3,
    CountOverdueByUserID := fun _ => Except.error RepoErr.err,
    GetByUserID := fun _ _ => Except.ok [] }

/-- An interaction source whose recent-window query fails (other queries
healthy). -/
def interactionRepoFailingRecent : InteractionRepository :=
  { GetByUserID := fun _ _ => Except.ok [],
    GetRecentByUserID := fun _ _ _ => Except.error RepoErr.err }

/-- A service in which exactly the two degradable counter queries (overdue
tasks, recent interactions) fail. -/
def svcDegradedCounters : userService :=
  { svcEmpty with taskRepo := some taskRepoFailingOverdue,
                  interactionRepo := some interactionRepoFailingRecent }

/-- A contact source all of whose queries fail: a fully failing
Relationship source. -/
def contactRepoAllFailing : ContactRepository :=
  { CountByUserID := fun _ => Except.error RepoErr.err,
    CountByType := fun _ _ => Except.error RepoErr.err,
    GetByUserID := fun _ _ => Except.error RepoErr.err }

/-- A service whose contact source fails every query. -/
def svcContactSourceDown : userService :=
  { svcEmpty with contactRepo := some contactRepoAllFailing }

/-- A contact source that fails exactly the dashboard recent-contacts query
(the one issued with `Limit = 5`) and answers everything else. -/
def contactRepoFailingRecents : ContactRepository :=
  { CountByUserID := fun _ => Except.ok 0,
    CountByType := fun _ _ => Except.ok 0,
    GetByUserID := fun _ filter =>
      if filter.Limit = 5 then Except.error RepoErr.err else Except.ok [] }

/-- A service in which only the dashboard recent-contacts query fails. -/
def svcContactRecentsDown : userService :=
  { svcEmpty with contactRepo := some contactRepoFailingRecents }

/-- A completed task whose modification timestamp equals its creation
timestamp. -/
def taskCompletedUnmodified : Task :=
  { ID := 1, Title := "Ship".toList, Description := [], DueDate := none,
    Priority := "HIGH".toList, Status := TaskStatusCompleted, UserID := 1,
    ContactID := none, ProjectID := none, CreatedAt := ⟨0⟩, UpdatedAt := ⟨0⟩,
    Contact := none, Project := none }

/-- A completed task modified exactly two minutes after creation. -/
def taskCompletedModified : Task :=
  { ID := 2, Title := "Ship".toList, Description := [], DueDate := none,
    Priority := "HIGH".toList, Status := TaskStatusCompleted, UserID := 1,
    ContactID := none, ProjectID := none, CreatedAt := ⟨0⟩,
    UpdatedAt := ⟨120000000000⟩, Contact := none, Project := none }

/-- A first stored contact (created at t = 1000ns, never modified). -/
def contactAna : Contact :=
  { ID := 1, Name := "Ana".toList, Email := "ana@example.com".toList,
    Phone := [], Company := [], Position := [], «Type» := ContactTypeClient,
    Notes := [], UserID := 1, CreatedAt := ⟨1000⟩, UpdatedAt := ⟨1000⟩ }

/-- A second stored contact (created at t = 2000ns, never modified). -/
def contactBea : Contact :=
  { ID := 2, Name := "Bea".toList, Email := "bea@example.com".toList,
    Phone := [], Company := [], Position := [], «Type» := ContactTypeLead,
    Notes := [], UserID := 1, CreatedAt := ⟨2000⟩, UpdatedAt := ⟨2000⟩ }

/-- A contact source holding the two contacts above. -/
def contactRepoTwoContacts : ContactRepository :=
  { CountByUserID := fun _ => Except.ok 2,
    CountByType := fun _ _ => Except.ok 1,
    GetByUserID := fun _ _ => Except.ok [contactAna, contactBea] }

/-- A service whose only records are the two contacts above. -/
def svcTwoContacts : userService :=
  { svcEmpty with contactRepo := some contactRepoTwoContacts }

/-- A task source whose pending-count query fails (other queries healthy). -/
def taskRepoFailingPending : TaskRepository :=
  { CountByUserID := fun _ => Except.ok 7,
    CountPendingByUserID := fun _ => Except.error RepoErr.err,
    CountOverdueByUserID := fun _ => Except.ok 0,
    GetByUserID := fun _ _ => Except.ok [] }

/-- A service whose task pending-count query fails and whose every other
query succeeds. -/
def svcPendingCountFailure : userService :=
  { svcEmpty with taskRepo := some taskRepoFailingPending }

/-- An interaction source that fails exactly the dashboard
recent-interactions query (the one issued with `Limit = 5`) and answers
everything else. -/
def interactionRepoFailingDashboard : InteractionRepository :=
  { GetByUserID := fun _ filter =>
      if filter.Limit = 5 then Except.error RepoErr.err else Except.ok [],
    GetRecentByUserID := fun _ _ _ => Except.ok [] }

/-- A service in which only the dashboard recent-interactions query fails. -/
def svcInteractionRecentsDown : userService :=
  { svcEmpty with interactionRepo := some interactionRepoFailingDashboard }

/-- The dashboard snapshot the engine produces for the degraded-query
fixtures (`svcContactRecentsDown`, `svcInteractionRecentsDown`): every
section empty and statistics all zero. -/
def dashboardRecentsDownResult : DashboardData :=
  { Stats := userStatsInit, RecentActivities := [], RecentProjects := [],
    RecentInteractions := [], RecentPendingTasks := [], RecentContacts := [] }

/-! Helper lemmas. -/

theorem sortActivitiesByDate_pairwise (l : List UserActivity) :
    (sortActivitiesByDate l).Pairwise recentFirst := by
  haveI : IsTotal UserActivity recentFirst := ⟨fun a b => Int.le_total _ _⟩
  haveI : IsTrans UserActivity recentFirst := ⟨fun _ _ _ h1 h2 => le_trans h2 h1⟩
  exact List.sorted_insertionSort recentFirst l

theorem assembleRecentActivities_Count (limit : Int) (l : List UserActivity) :
    (assembleRecentActivities limit l).Count =
      ((assembleRecentActivities limit l).Activities.length : Int) := rfl

theorem assembleRecentActivities_length_le (limit : Int) (hl : 0 < limit)
    (l : List UserActivity) :
    ((assembleRecentActivities limit l).Activities.length : Int) ≤ limit := by
  unfold assembleRecentActivities
  dsimp only
  split
  · rw [List.length_take]
    omega
  · omega

theorem assembleRecentActivities_pairwise (limit : Int) (l : List UserActivity) :
    (assembleRecentActivities limit l).Activities.Pairwise recentFirst := by
  unfold assembleRecentActivities
  dsimp only
  split
  · exact List.Pairwise.sublist (List.take_sublist _ _) (sortActivitiesByDate_pairwise l)
  · exact sortActivitiesByDate_pairwise l

theorem assembleRecentActivities_nil (limit : Int) (hl : 0 < limit) :
    assembleRecentActivities limit [] = { Activities := [], Count := 0 } := by
  unfold assembleRecentActivities sortActivitiesByDate
  simp only [List.insertionSort]
  rw [if_neg (by simp; omega)]
  rfl

theorem getRecentActivities_ok_shape {s : userService} {userID : Nat}
    {limit : Int} {r : RecentActivityResponse}
    (h : s.GetRecentActivities userID limit = Except.ok r) :
    ∃ l, r = assembleRecentActivities (if limit ≤ 0 then (20 : Int) else limit) l := by
  simp only [userService.GetRecentActivities] at h
  set L := (if limit ≤ 0 then (20 : Int) else limit) with hL
  repeat' split at h
  all_goals first
    | exact Except.noConfusion h
    | · injection h with h
        exact ⟨_, h.symm⟩

theorem getRecentActivities_defaults (s : userService) (userID : Nat)
    (limit : Int) (hl : limit ≤ 0) :
    s.GetRecentActivities userID limit = s.GetRecentActivities userID 20 := by
  simp only [userService.GetRecentActivities, hl]
  norm_num

theorem contactStatsStep_some_ok (repo : ContactRepository) (userID : Nat)
    (stats : UserStats) (nContacts nClients nLeads : Int)
    (h1 : repo.CountByUserID userID = Except.ok nContacts)
    (h2 : repo.CountByType userID ContactTypeClient = Except.ok nClients)
    (h3 : repo.CountByType userID ContactTypeLead = Except.ok nLeads) :
    contactStatsStep (some repo) userID stats =
      Except.ok { stats with TotalContacts := nContacts,
                             TotalClients := nClients, TotalLeads := nLeads } := by
  simp only [contactStatsStep]
  rw [h1, h2, h3]

theorem taskStatsStep_some_ok (repo : TaskRepository) (userID : Nat)
    (stats : UserStats) (nTasks nPending : Int)
    (h1 : repo.CountByUserID userID = Except.ok nTasks)
    (h2 : repo.CountPendingByUserID userID = Except.ok nPending) :
    taskStatsStep (some repo) userID stats =
      Except.ok { stats with TotalTasks := nTasks, PendingTasks := nPending,
                             CompletedTasks := nTasks - nPending,
                             OverdueTasks :=
                               match repo.CountOverdueByUserID userID with
                               | Except.error _ => 0
                               | Except.ok overdueTasks => overdueTasks } := by
  simp only [taskStatsStep]
  rw [h1, h2]
  cases ho : repo.CountOverdueByUserID userID <;> rfl

theorem projectStatsStep_some_ok (repo : ProjectRepository) (userID : Nat)
    (stats : UserStats) (nProjects nActive nDone : Int)
    (h1 : repo.CountByUserID userID = Except.ok nProjects)
    (h2 : repo.CountByStatus userID ProjectStatusInProgress = Except.ok nActive)
    (h3 : repo.CountByStatus userID ProjectStatusCompleted = Except.ok nDone) :
    projectStatsStep (some repo) userID stats =
      Except.ok { stats with TotalProjects := nProjects,
                             ActiveProjects := nActive,
                             CompletedProjects := nDone } := by
  simp only [projectStatsStep]
  rw [h1, h2, h3]

theorem interactionStatsStep_some_ok (repo : InteractionRepository) (userID : Nat)
    (stats : UserStats) (interactions : List Interaction)
    (h1 : repo.GetByUserID userID interactionListFilterZero = Except.ok interactions) :
    interactionStatsStep (some repo) userID stats =
      Except.ok { stats with TotalInteractions := (interactions.length : Int),
                             RecentInteractions :=
                               match repo.GetRecentByUserID userID 7 100 with
                               | Except.error _ => 0
                               | Except.ok recentInteractions =>
                                   (recentInteractions.length : Int) } := by
  simp only [interactionStatsStep]
  rw [h1]
  cases hr : repo.GetRecentByUserID userID 7 100 <;> rfl

theorem contactStatsStep_preserves_taskFields {contactRepo : Option ContactRepository}
    {userID : Nat} {stats out : UserStats}
    (h : contactStatsStep contactRepo userID stats = Except.ok out) :
    out.TotalTasks = stats.TotalTasks ∧ out.PendingTasks = stats.PendingTasks ∧
      out.CompletedTasks = stats.CompletedTasks := by
  unfold contactStatsStep at h
  repeat' split at h
  all_goals first
    | exact Except.noConfusion h
    | · injection h with h
        subst h
        exact ⟨rfl, rfl, rfl⟩

theorem projectStatsStep_preserves_taskFields {projectRepo : Option ProjectRepository}
    {userID : Nat} {stats out : UserStats}
    (h : projectStatsStep projectRepo userID stats = Except.ok out) :
    out.TotalTasks = stats.TotalTasks ∧ out.PendingTasks = stats.PendingTasks ∧
      out.CompletedTasks = stats.CompletedTasks := by
  unfold projectStatsStep at h
  repeat' split at h
  all_goals first
    | exact Except.noConfusion h
    | · injection h with h
        subst h
        exact ⟨rfl, rfl, rfl⟩

theorem interactionStatsStep_preserves_taskFields
    {interactionRepo : Option InteractionRepository}
    {userID : Nat} {stats out : UserStats}
    (h : interactionStatsStep interactionRepo userID stats = Except.ok out) :
    out.TotalTasks = stats.TotalTasks ∧ out.PendingTasks = stats.PendingTasks ∧
      out.CompletedTasks = stats.CompletedTasks := by
  unfold interactionStatsStep at h
  repeat' split at h
  all_goals first
    | exact Except.noConfusion h
    | · injection h with h
        subst h
        exact ⟨rfl, rfl, rfl⟩

theorem taskStatsStep_subtraction {taskRepo : Option TaskRepository}
    {userID : Nat} {stats out : UserStats}
    (h : taskStatsStep taskRepo userID stats = Except.ok out)
    (hin : stats.CompletedTasks = stats.TotalTasks - stats.PendingTasks) :
    out.CompletedTasks = out.TotalTasks - out.PendingTasks := by
  unfold taskStatsStep at h
  repeat' split at h
  all_goals first
    | exact Except.noConfusion h
    | · injection h with h
        subst h
        first | exact hin | rfl

/-! Each step-3 dashboard block writes exactly one list of the snapshot;
every other field passes through unchanged. -/

theorem dashboardInteractionsStep_Stats (interactionRepo : Option InteractionRepository)
    (userID : Nat) (d : DashboardData) :
    (dashboardInteractionsStep interactionRepo userID d).Stats = d.Stats := by
  unfold dashboardInteractionsStep
  repeat' split
  all_goals rfl

theorem dashboardInteractionsStep_RecentActivities (interactionRepo : Option InteractionRepository)
    (userID : Nat) (d : DashboardData) :
    (dashboardInteractionsStep interactionRepo userID d).RecentActivities = d.RecentActivities := by
  unfold dashboardInteractionsStep
  repeat' split
  all_goals rfl

theorem dashboardInteractionsStep_RecentProjects (interactionRepo : Option InteractionRepository)
    (userID : Nat) (d : DashboardData) :
    (dashboardInteractionsStep interactionRepo userID d).RecentProjects = d.RecentProjects := by
  unfold dashboardInteractionsStep
  repeat' split
  all_goals rfl

theorem dashboardInteractionsStep_RecentPendingTasks (interactionRepo : Option InteractionRepository)
    (userID : Nat) (d : DashboardData) :
    (dashboardInteractionsStep interactionRepo userID d).RecentPendingTasks = d.RecentPendingTasks := by
  unfold dashboardInteractionsStep
  repeat' split
  all_goals rfl

theorem dashboardInteractionsStep_RecentContacts (interactionRepo : Option InteractionRepository)
    (userID : Nat) (d : DashboardData) :
    (dashboardInteractionsStep interactionRepo userID d).RecentContacts = d.RecentContacts := by
  unfold dashboardInteractionsStep
  repeat' split
  all_goals rfl

theorem dashboardProjectsStep_Stats (projectRepo : Option ProjectRepository)
    (userID : Nat) (d : DashboardData) :
    (dashboardProjectsStep projectRepo userID d).Stats = d.Stats := by
  unfold dashboardProjectsStep
  repeat' split
  all_goals rfl

theorem dashboardProjectsStep_RecentActivities (projectRepo : Option ProjectRepository)
    (userID : Nat) (d : DashboardData) :
    (dashboardProjectsStep projectRepo userID d).RecentActivities = d.RecentActivities := by
  unfold dashboardProjectsStep
  repeat' split
  all_goals rfl

theorem dashboardProjectsStep_RecentInteractions (projectRepo : Option ProjectRepository)
    (userID : Nat) (d : DashboardData) :
    (dashboardProjectsStep projectRepo userID d).RecentInteractions = d.RecentInteractions := by
  unfold dashboardProjectsStep
  repeat' split
  all_goals rfl

theorem dashboardProjectsStep_RecentPendingTasks (projectRepo : Option ProjectRepository)
    (userID : Nat) (d : DashboardData) :
    (dashboardProjectsStep projectRepo userID d).RecentPendingTasks = d.RecentPendingTasks := by
  unfold dashboardProjectsStep
  repeat' split
  all_goals rfl

theorem dashboardProjectsStep_RecentContacts (projectRepo : Option ProjectRepository)
    (userID : Nat) (d : DashboardData) :
    (dashboardProjectsStep projectRepo userID d).RecentContacts = d.RecentContacts := by
  unfold dashboardProjectsStep
  repeat' split
  all_goals rfl

theorem dashboardTasksStep_Stats (taskRepo : Option TaskRepository)
    (userID : Nat) (d : DashboardData) :
    (dashboardTasksStep taskRepo userID d).Stats = d.Stats := by
  unfold dashboardTasksStep
  repeat' split
  all_goals rfl

theorem dashboardTasksStep_RecentActivities (taskRepo : Option TaskRepository)
    (userID : Nat) (d : DashboardData) :
    (dashboardTasksStep taskRepo userID d).RecentActivities = d.RecentActivities := by
  unfold dashboardTasksStep
  repeat' split
  all_goals rfl

theorem dashboardTasksStep_RecentProjects (taskRepo : Option TaskRepository)
    (userID : Nat) (d : DashboardData) :
    (dashboardTasksStep taskRepo userID d).RecentProjects = d.RecentProjects := by
  unfold dashboardTasksStep
  repeat' split
  all_goals rfl

theorem dashboardTasksStep_RecentInteractions (taskRepo : Option TaskRepository)
    (userID : Nat) (d : DashboardData) :
    (dashboardTasksStep taskRepo userID d).RecentInteractions = d.RecentInteractions := by
  unfold dashboardTasksStep
  repeat' split
  all_goals rfl

theorem dashboardTasksStep_RecentContacts (taskRepo : Option TaskRepository)
    (userID : Nat) (d : DashboardData) :
    (dashboardTasksStep taskRepo userID d).RecentContacts = d.RecentContacts := by
  unfold dashboardTasksStep
  repeat' split
  all_goals rfl

theorem dashboardContactsStep_Stats (contactRepo : Option ContactRepository)
    (userID : Nat) (d : DashboardData) :
    (dashboardContactsStep contactRepo userID d).Stats = d.Stats := by
  unfold dashboardContactsStep
  repeat' split
  all_goals rfl

theorem dashboardContactsStep_RecentActivities (contactRepo : Option ContactRepository)
    (userID : Nat) (d : DashboardData) :
    (dashboardContactsStep contactRepo userID d).RecentActivities = d.RecentActivities := by
  unfold dashboardContactsStep
  repeat' split
  all_goals rfl

theorem dashboardContactsStep_RecentProjects (contactRepo : Option ContactRepository)
    (userID : Nat) (d : DashboardData) :
    (dashboardContactsStep contactRepo userID d).RecentProjects = d.RecentProjects := by
  unfold dashboardContactsStep
  repeat' split
  all_goals rfl

theorem dashboardContactsStep_RecentInteractions (contactRepo : Option ContactRepository)
    (userID : Nat) (d : DashboardData) :
    (dashboardContactsStep contactRepo userID d).RecentInteractions = d.RecentInteractions := by
  unfold dashboardContactsStep
  repeat' split
  all_goals rfl

theorem dashboardContactsStep_RecentPendingTasks (contactRepo : Option ContactRepository)
    (userID : Nat) (d : DashboardData) :
    (dashboardContactsStep contactRepo userID d).RecentPendingTasks = d.RecentPendingTasks := by
  unfold dashboardContactsStep
  repeat' split
  all_goals rfl

theorem dashboardContactsStep_error (repo : ContactRepository) (userID : Nat)
    (d : DashboardData) (e : RepoErr)
    (h : repo.GetByUserID userID { contactListFilterZero with Limit := 5 } =
      Except.error e) :
    dashboardContactsStep (some repo) userID d = d := by
  simp only [dashboardContactsStep]
  rw [h]

theorem dashboardInteractionsStep_error (repo : InteractionRepository)
    (userID : Nat) (d : DashboardData) (e : RepoErr)
    (h : repo.GetByUserID userID { interactionListFilterZero with Limit := 5 } =
      Except.error e) :
    dashboardInteractionsStep (some repo) userID d = d := by
  simp only [dashboardInteractionsStep]
  rw [h]

theorem dashboardProjectsStep_error (repo : ProjectRepository) (userID : Nat)
    (d : DashboardData) (e : RepoErr)
    (h : repo.GetByUserID userID
        { projectListFilterZero with Status := "IN_PROGRESS".toList, Limit := 5 } =
      Except.error e) :
    dashboardProjectsStep (some repo) userID d = d := by
  simp only [dashboardProjectsStep]
  rw [h]

theorem dashboardTasksStep_error (repo : TaskRepository) (userID : Nat)
    (d : DashboardData) (e : RepoErr)
    (h : repo.GetByUserID userID
        { taskListFilterZero with Status := TaskStatusPending, Limit := 5 } =
      Except.error e) :
    dashboardTasksStep (some repo) userID d = d := by
  simp only [dashboardTasksStep]
  rw [h]

theorem createActivityFromTask_CreatedAt (task : Task) :
    (createActivityFromTask task).CreatedAt = task.CreatedAt := by
  unfold createActivityFromTask taskProjectAssociation
  repeat' split
  all_goals rfl

theorem createActivityFromTask_UpdatedAt (task : Task) :
    (createActivityFromTask task).UpdatedAt = task.UpdatedAt := by
  unfold createActivityFromTask taskProjectAssociation
  repeat' split
  all_goals rfl

theorem getUserStats_steps (s : userService) (userID : Nat)
    {s1 s2 s3 s4 : UserStats}
    (e1 : contactStatsStep s.contactRepo userID userStatsInit = Except.ok s1)
    (e2 : taskStatsStep s.taskRepo userID s1 = Except.ok s2)
    (e3 : projectStatsStep s.projectRepo userID s2 = Except.ok s3)
    (e4 : interactionStatsStep s.interactionRepo userID s3 = Except.ok s4) :
    s.GetUserStats userID = Except.ok s4 := by
  simp only [userService.GetUserStats, e1, e2, e3, e4]

/-! Failure propagation through `GetUserStats`: each non-degradable counter
query that fails (the queries before it in source order having succeeded)
aborts its block with ErrInternalServer, and a failing block aborts the
whole call. -/

theorem contactStatsStep_total_error (repo : ContactRepository) (userID : Nat)
    (stats : UserStats) (e : RepoErr)
    (h1 : repo.CountByUserID userID = Except.error e) :
    contactStatsStep (some repo) userID stats = Except.error AppError.internalServer := by
  simp only [contactStatsStep, h1]

theorem contactStatsStep_client_error (repo : ContactRepository) (userID : Nat)
    (stats : UserStats) (nContacts : Int) (e : RepoErr)
    (h1 : repo.CountByUserID userID = Except.ok nContacts)
    (h2 : repo.CountByType userID ContactTypeClient = Except.error e) :
    contactStatsStep (some repo) userID stats = Except.error AppError.internalServer := by
  simp only [contactStatsStep, h1, h2]

theorem contactStatsStep_lead_error (repo : ContactRepository) (userID : Nat)
    (stats : UserStats) (nContacts nClients : Int) (e : RepoErr)
    (h1 : repo.CountByUserID userID = Except.ok nContacts)
    (h2 : repo.CountByType userID ContactTypeClient = Except.ok nClients)
    (h3 : repo.CountByType userID ContactTypeLead = Except.error e) :
    contactStatsStep (some repo) userID stats = Except.error AppError.internalServer := by
  simp only [contactStatsStep, h1, h2, h3]

theorem taskStatsStep_total_error (repo : TaskRepository) (userID : Nat)
    (stats : UserStats) (e : RepoErr)
    (h1 : repo.CountByUserID userID = Except.error e) :
    taskStatsStep (some repo) userID stats = Except.error AppError.internalServer := by
  simp only [taskStatsStep, h1]

theorem taskStatsStep_pending_error (repo : TaskRepository) (userID : Nat)
    (stats : UserStats) (nTasks : Int) (e : RepoErr)
    (h1 : repo.CountByUserID userID = Except.ok nTasks)
    (h2 : repo.CountPendingByUserID userID = Except.error e) :
    taskStatsStep (some repo) userID stats = Except.error AppError.internalServer := by
  simp only [taskStatsStep, h1, h2]

theorem projectStatsStep_total_error (repo : ProjectRepository) (userID : Nat)
    (stats : UserStats) (e : RepoErr)
    (h1 : repo.CountByUserID userID = Except.error e) :
    projectStatsStep (some repo) userID stats = Except.error AppError.internalServer := by
  simp only [projectStatsStep, h1]

theorem projectStatsStep_active_error (repo : ProjectRepository) (userID : Nat)
    (stats : UserStats) (nProjects : Int) (e : RepoErr)
    (h1 : repo.CountByUserID userID = Except.ok nProjects)
    (h2 : repo.CountByStatus userID ProjectStatusInProgress = Except.error e) :
    projectStatsStep (some repo) userID stats = Except.error AppError.internalServer := by
  simp only [projectStatsStep, h1, h2]

theorem projectStatsStep_completed_error (repo : ProjectRepository) (userID : Nat)
    (stats : UserStats) (nProjects nActive : Int) (e : RepoErr)
    (h1 : repo.CountByUserID userID = Except.ok nProjects)
    (h2 : repo.CountByStatus userID ProjectStatusInProgress = Except.ok nActive)
    (h3 : repo.CountByStatus userID ProjectStatusCompleted = Except.error e) :
    projectStatsStep (some repo) userID stats = Except.error AppError.internalServer := by
  simp only [projectStatsStep, h1, h2, h3]

theorem interactionStatsStep_list_error (repo : InteractionRepository)
    (userID : Nat) (stats : UserStats) (e : RepoErr)
    (h1 : repo.GetByUserID userID interactionListFilterZero = Except.error e) :
    interactionStatsStep (some repo) userID stats = Except.error AppError.internalServer := by
  simp only [interactionStatsStep, h1]

theorem getUserStats_step1_error (s : userService) (userID : Nat) {e : AppError}
    (h1 : contactStatsStep s.contactRepo userID userStatsInit = Except.error e) :
    s.GetUserStats userID = Except.error e := by
  simp only [userService.GetUserStats, h1]

theorem getUserStats_step2_error (s : userService) (userID : Nat)
    {s1 : UserStats} {e : AppError}
    (h1 : contactStatsStep s.contactRepo userID userStatsInit = Except.ok s1)
    (h2 : taskStatsStep s.taskRepo userID s1 = Except.error e) :
    s.GetUserStats userID = Except.error e := by
  simp only [userService.GetUserStats, h1, h2]

theorem getUserStats_step3_error (s : userService) (userID : Nat)
    {s1 s2 : UserStats} {e : AppError}
    (h1 : contactStatsStep s.contactRepo userID userStatsInit = Except.ok s1)
    (h2 : taskStatsStep s.taskRepo userID s1 = Except.ok s2)
    (h3 : projectStatsStep s.projectRepo userID s2 = Except.error e) :
    s.GetUserStats userID = Except.error e := by
  simp only [userService.GetUserStats, h1, h2, h3]

theorem getUserStats_step4_error (s : userService) (userID : Nat)
    {s1 s2 s3 : UserStats} {e : AppError}
    (h1 : contactStatsStep s.contactRepo userID userStatsInit = Except.ok s1)
    (h2 : taskStatsStep s.taskRepo userID s1 = Except.ok s2)
    (h3 : projectStatsStep s.projectRepo userID s2 = Except.ok s3)
    (h4 : interactionStatsStep s.interactionRepo userID s3 = Except.error e) :
    s.GetUserStats userID = Except.error e := by
  simp only [userService.GetUserStats, h1, h2, h3, h4]

/-! The claims. -/

/-- C7: `truncateString` (at its only used threshold, 100) is the identity
on every string of length at most 100; on longer strings it returns the
first 97 characters followed by the three-character ellipsis, a string of
length exactly 100. -/
theorem truncateString_spec (s : GoStr) :
    (s.length ≤ 100 → truncateString s 100 = s) ∧
    (100 < s.length →
      (truncateString s 100).length = 100 ∧
      truncateString s 100 = s.take 97 ++ "...".toList) := by
  constructor
  · intro h
    simp [truncateString, h]
  · intro h
    have hn : ¬ s.length ≤ 100 := by omega
    have h3 : ("...".toList : GoStr).length = 3 := rfl
    constructor
    · simp only [truncateString, hn, if_false, List.length_append,
        List.length_take, h3]
      omega
    · simp [truncateString, hn]

/-- Witness for C7 at a short and a 101-character string. -/
theorem truncateString_spec_witness :
    truncateString "short".toList 100 = "short".toList ∧
    (truncateString (List.replicate 101 'a') 100).length = 100 :=
  ⟨(truncateString_spec _).1 (by decide),
   ((truncateString_spec _).2 (by decide)).1⟩

/-- C10: in every successful statistics snapshot the completed-tasks counter
is derived by subtraction, `CompletedTasks = TotalTasks - PendingTasks`, so
`PendingTasks + CompletedTasks = TotalTasks` holds. -/
theorem getUserStats_task_counters (s : userService) (userID : Nat)
    (stats : UserStats) (h : s.GetUserStats userID = Except.ok stats) :
    stats.CompletedTasks = stats.TotalTasks - stats.PendingTasks ∧
    stats.PendingTasks + stats.CompletedTasks = stats.TotalTasks := by
  unfold userService.GetUserStats at h
  split at h
  · exact Except.noConfusion h
  rename_i s1 hc
  split at h
  · exact Except.noConfusion h
  rename_i s2 ht
  split at h
  · exact Except.noConfusion h
  rename_i s3 hp
  split at h
  · exact Except.noConfusion h
  rename_i s4 hi
  injection h with h
  subst h
  obtain ⟨c1, c2, c3⟩ := contactStatsStep_preserves_taskFields hc
  have inv1 : s1.CompletedTasks = s1.TotalTasks - s1.PendingTasks := by
    rw [c1, c2, c3]
    decide
  have inv2 := taskStatsStep_subtraction ht inv1
  obtain ⟨p1, p2, p3⟩ := projectStatsStep_preserves_taskFields hp
  obtain ⟨i1, i2, i3⟩ := interactionStatsStep_preserves_taskFields hi
  have inv3 : s4.CompletedTasks = s4.TotalTasks - s4.PendingTasks := by
    rw [i3, p3, i1, p1, i2, p2]
    exact inv2
  exact ⟨inv3, by omega⟩

/-- Witness for C10: the healthy empty service. -/
theorem getUserStats_task_counters_witness :
    userStatsInit.CompletedTasks = userStatsInit.TotalTasks - userStatsInit.PendingTasks ∧
    userStatsInit.PendingTasks + userStatsInit.CompletedTasks = userStatsInit.TotalTasks :=
  getUserStats_task_counters svcEmpty 1 userStatsInit (by rfl)

/-- C9: a caller-supplied limit at most 0 is treated as the default limit
20, and in every successful result the returned Count equals the length of
the returned Activities. -/
theorem getRecentActivities_default_limit_and_count (s : userService)
    (userID : Nat) (limit : Int) :
    (limit ≤ 0 → s.GetRecentActivities userID limit = s.GetRecentActivities userID 20) ∧
    (∀ r, s.GetRecentActivities userID limit = Except.ok r →
      r.Count = (r.Activities.length : Int)) := by
  refine ⟨fun hl => getRecentActivities_defaults s userID limit hl, fun r h => ?_⟩
  obtain ⟨l, rfl⟩ := getRecentActivities_ok_shape h
  exact assembleRecentActivities_Count _ _

/-- Witness for C9 at the empty service and limit -1. -/
theorem getRecentActivities_default_limit_and_count_witness :
    svcEmpty.GetRecentActivities 1 (-1) = svcEmpty.GetRecentActivities 1 20 ∧
    ({ Activities := [], Count := 0 } : RecentActivityResponse).Count =
      (({ Activities := [], Count := 0 } : RecentActivityResponse).Activities.length : Int) :=
  ⟨(getRecentActivities_default_limit_and_count svcEmpty 1 (-1)).1 (by decide),
   (getRecentActivities_default_limit_and_count svcEmpty 1 (-1)).2 _ (by rfl)⟩

/-- C5: for every service, owner and positive limit, a successful activity
feed is never longer than the limit and is ordered non-increasingly by event
timestamp (`recentFirst`: for i < j, result[j].CreatedAt ≤ result[i].CreatedAt). -/
theorem getRecentActivities_bounded_and_sorted (s : userService) (userID : Nat)
    (limit : Int) (hl : 0 < limit) (r : RecentActivityResponse)
    (h : s.GetRecentActivities userID limit = Except.ok r) :
    (r.Activities.length : Int) ≤ limit ∧
    r.Activities.Pairwise recentFirst := by
  obtain ⟨l, rfl⟩ := getRecentActivities_ok_shape h
  rw [if_neg (by omega)]
  exact ⟨assembleRecentActivities_length_le limit hl l,
         assembleRecentActivities_pairwise limit l⟩

/-- Witness for C5 at the empty service and limit 5. -/
theorem getRecentActivities_bounded_and_sorted_witness :
    ((({ Activities := [], Count := 0 } : RecentActivityResponse).Activities.length : Int) ≤ 5 ∧
      ({ Activities := [], Count := 0 } : RecentActivityResponse).Activities.Pairwise recentFirst) :=
  getRecentActivities_bounded_and_sorted svcEmpty 1 5 (by decide)
    { Activities := [], Count := 0 } rfl

/-- C1 counterexample: with every query healthy except the contact
total-count, `GetUserStats` does not replace that counter with zero — it
fails the whole call with ErrInternalServer. -/
theorem getUserStats_contact_count_failure_propagates :
    svcContactCountFailure.GetUserStats 1 = Except.error AppError.internalServer := rfl

/-- C1 (amended): `GetUserStats` isolates exactly two counter queries, the
overdue-task count and the recent-interaction count.  Given the four
repositories: (a) whenever the nine non-degradable counter queries succeed,
the call succeeds even if either degradable query fails — each failing
degradable counter is replaced by the value zero; and (b) a failure of any
one of the nine non-degradable counter queries (contact totals, per-type
counts, task totals, pending counts, project totals, per-status counts,
interaction totals), the queries before it in source order succeeding,
propagates: the whole call returns ErrInternalServer. -/
theorem getUserStats_degrades_only_overdue_and_recent
    (s : userService) (userID : Nat)
    (crepo : ContactRepository) (trepo : TaskRepository)
    (prepo : ProjectRepository) (irepo : InteractionRepository)
    (hc : s.contactRepo = some crepo) (ht : s.taskRepo = some trepo)
    (hp : s.projectRepo = some prepo) (hi : s.interactionRepo = some irepo) :
    (∀ (nContacts nClients nLeads nTasks nPending nProjects nActive nDone : Int)
       (interactions : List Interaction),
      crepo.CountByUserID userID = Except.ok nContacts →
      crepo.CountByType userID ContactTypeClient = Except.ok nClients →
      crepo.CountByType userID ContactTypeLead = Except.ok nLeads →
      trepo.CountByUserID userID = Except.ok nTasks →
      trepo.CountPendingByUserID userID = Except.ok nPending →
      prepo.CountByUserID userID = Except.ok nProjects →
      prepo.CountByStatus userID ProjectStatusInProgress = Except.ok nActive →
      prepo.CountByStatus userID ProjectStatusCompleted = Except.ok nDone →
      irepo.GetByUserID userID interactionListFilterZero = Except.ok interactions →
      s.GetUserStats userID = Except.ok
        { TotalContacts := nContacts, TotalClients := nClients, TotalLeads := nLeads,
          TotalTasks := nTasks, PendingTasks := nPending,
          CompletedTasks := nTasks - nPending,
          OverdueTasks :=
            match trepo.CountOverdueByUserID userID with
            | Except.error _ => 0
            | Except.ok overdueTasks => overdueTasks,
          TotalProjects := nProjects, ActiveProjects := nActive,
          CompletedProjects := nDone,
          TotalInteractions := (interactions.length : Int),
          RecentInteractions :=
            match irepo.GetRecentByUserID userID 7 100 with
            | Except.error _ => 0
            | Except.ok recentInteractions => (recentInteractions.length : Int) }) ∧
    (∀ e, crepo.CountByUserID userID = Except.error e →
      s.GetUserStats userID = Except.error AppError.internalServer) ∧
    (∀ (nContacts : Int) e,
      crepo.CountByUserID userID = Except.ok nContacts →
      crepo.CountByType userID ContactTypeClient = Except.error e →
      s.GetUserStats userID = Except.error AppError.internalServer) ∧
    (∀ (nContacts nClients : Int) e,
      crepo.CountByUserID userID = Except.ok nContacts →
      crepo.CountByType userID ContactTypeClient = Except.ok nClients →
      crepo.CountByType userID ContactTypeLead = Except.error e →
      s.GetUserStats userID = Except.error AppError.internalServer) ∧
    (∀ (nContacts nClients nLeads : Int) e,
      crepo.CountByUserID userID = Except.ok nContacts →
      crepo.CountByType userID ContactTypeClient = Except.ok nClients →
      crepo.CountByType userID ContactTypeLead = Except.ok nLeads →
      trepo.CountByUserID userID = Except.error e →
      s.GetUserStats userID = Except.error AppError.internalServer) ∧
    (∀ (nContacts nClients nLeads nTasks : Int) e,
      crepo.CountByUserID userID = Except.ok nContacts →
      crepo.CountByType userID ContactTypeClient = Except.ok nClients →
      crepo.CountByType userID ContactTypeLead = Except.ok nLeads →
      trepo.CountByUserID userID = Except.ok nTasks →
      trepo.CountPendingByUserID userID = Except.error e →
      s.GetUserStats userID = Except.error AppError.internalServer) ∧
    (∀ (nContacts nClients nLeads nTasks nPending : Int) e,
      crepo.CountByUserID userID = Except.ok nContacts →
      crepo.CountByType userID ContactTypeClient = Except.ok nClients →
      crepo.CountByType userID ContactTypeLead = Except.ok nLeads →
      trepo.CountByUserID userID = Except.ok nTasks →
      trepo.CountPendingByUserID userID = Except.ok nPending →
      prepo.CountByUserID userID = Except.error e →
      s.GetUserStats userID = Except.error AppError.internalServer) ∧
    (∀ (nContacts nClients nLeads nTasks nPending nProjects : Int) e,
      crepo.CountByUserID userID = Except.ok nContacts →
      crepo.CountByType userID ContactTypeClient = Except.ok nClients →
      crepo.CountByType userID ContactTypeLead = Except.ok nLeads →
      trepo.CountByUserID userID = Except.ok nTasks →
      trepo.CountPendingByUserID userID = Except.ok nPending →
      prepo.CountByUserID userID = Except.ok nProjects →
      prepo.CountByStatus userID ProjectStatusInProgress = Except.error e →
      s.GetUserStats userID = Except.error AppError.internalServer) ∧
    (∀ (nContacts nClients nLeads nTasks nPending nProjects nActive : Int) e,
      crepo.CountByUserID userID = Except.ok nContacts →
      crepo.CountByType userID ContactTypeClient = Except.ok nClients →
      crepo.CountByType userID ContactTypeLead = Except.ok nLeads →
      trepo.CountByUserID userID = Except.ok nTasks →
      trepo.CountPendingByUserID userID = Except.ok nPending →
      prepo.CountByUserID userID = Except.ok nProjects →
      prepo.CountByStatus userID ProjectStatusInProgress = Except.ok nActive →
      prepo.CountByStatus userID ProjectStatusCompleted = Except.error e →
      s.GetUserStats userID = Except.error AppError.internalServer) ∧
    (∀ (nContacts nClients nLeads nTasks nPending nProjects nActive nDone : Int) e,
      crepo.CountByUserID userID = Except.ok nContacts →
      crepo.CountByType userID ContactTypeClient = Except.ok nClients →
      crepo.CountByType userID ContactTypeLead = Except.ok nLeads →
      trepo.CountByUserID userID = Except.ok nTasks →
      trepo.CountPendingByUserID userID = Except.ok nPending →
      prepo.CountByUserID userID = Except.ok nProjects →
      prepo.CountByStatus userID ProjectStatusInProgress = Except.ok nActive →
      prepo.CountByStatus userID ProjectStatusCompleted = Except.ok nDone →
      irepo.GetByUserID userID interactionListFilterZero = Except.error e →
      s.GetUserStats userID = Except.error AppError.internalServer) := by
  refine ⟨?_, ?_, ?_, ?_, ?_, ?_, ?_, ?_, ?_, ?_⟩
  · intro nContacts nClients nLeads nTasks nPending nProjects nActive nDone
      interactions h1 h2 h3 h4 h5 h6 h7 h8 h9
    exact getUserStats_steps s userID
      (by rw [hc]
          exact contactStatsStep_some_ok crepo userID userStatsInit nContacts nClients nLeads h1 h2 h3)
      (by rw [ht]
          exact taskStatsStep_some_ok trepo userID _ nTasks nPending h4 h5)
      (by rw [hp]
          exact projectStatsStep_some_ok prepo userID _ nProjects nActive nDone h6 h7 h8)
      (by rw [hi]
          exact interactionStatsStep_some_ok irepo userID _ interactions h9)
  · intro e h1
    exact getUserStats_step1_error s userID
      (by rw [hc]
          exact contactStatsStep_total_error crepo userID userStatsInit e h1)
  · intro nContacts e h1 h2
    exact getUserStats_step1_error s userID
      (by rw [hc]
          exact contactStatsStep_client_error crepo userID userStatsInit nContacts e h1 h2)
  · intro nContacts nClients e h1 h2 h3
    exact getUserStats_step1_error s userID
      (by rw [hc]
          exact contactStatsStep_lead_error crepo userID userStatsInit nContacts nClients e h1 h2 h3)
  · intro nContacts nClients nLeads e h1 h2 h3 h4
    exact getUserStats_step2_error s userID
      (by rw [hc]
          exact contactStatsStep_some_ok crepo userID userStatsInit nContacts nClients nLeads h1 h2 h3)
      (by rw [ht]
          exact taskStatsStep_total_error trepo userID _ e h4)
  · intro nContacts nClients nLeads nTasks e h1 h2 h3 h4 h5
    exact getUserStats_step2_error s userID
      (by rw [hc]
          exact contactStatsStep_some_ok crepo userID userStatsInit nContacts nClients nLeads h1 h2 h3)
      (by rw [ht]
          exact taskStatsStep_pending_error trepo userID _ nTasks e h4 h5)
  · intro nContacts nClients nLeads nTasks nPending e h1 h2 h3 h4 h5 h6
    exact getUserStats_step3_error s userID
      (by rw [hc]
          exact contactStatsStep_some_ok crepo userID userStatsInit nContacts nClients nLeads h1 h2 h3)
      (by rw [ht]
          exact taskStatsStep_some_ok trepo userID _ nTasks nPending h4 h5)
      (by rw [hp]
          exact projectStatsStep_total_error prepo userID _ e h6)
  · intro nContacts nClients nLeads nTasks nPending nProjects e h1 h2 h3 h4 h5 h6 h7
    exact getUserStats_step3_error s userID
      (by rw [hc]
          exact contactStatsStep_some_ok crepo userID userStatsInit nContacts nClients nLeads h1 h2 h3)
      (by rw [ht]
          exact taskStatsStep_some_ok trepo userID _ nTasks nPending h4 h5)
      (by rw [hp]
          exact projectStatsStep_active_error prepo userID _ nProjects e h6 h7)
  · intro nContacts nClients nLeads nTasks nPending nProjects nActive e h1 h2 h3 h4 h5 h6 h7 h8
    exact getUserStats_step3_error s userID
      (by rw [hc]
          exact contactStatsStep_some_ok crepo userID userStatsInit nContacts nClients nLeads h1 h2 h3)
      (by rw [ht]
          exact taskStatsStep_some_ok trepo userID _ nTasks nPending h4 h5)
      (by rw [hp]
          exact projectStatsStep_completed_error prepo userID _ nProjects nActive e h6 h7 h8)
  · intro nContacts nClients nLeads nTasks nPending nProjects nActive nDone e h1 h2 h3 h4 h5 h6 h7 h8 h9
    exact getUserStats_step4_error s userID
      (by rw [hc]
          exact contactStatsStep_some_ok crepo userID userStatsInit nContacts nClients nLeads h1 h2 h3)
      (by rw [ht]
          exact taskStatsStep_some_ok trepo userID _ nTasks nPending h4 h5)
      (by rw [hp]
          exact projectStatsStep_some_ok prepo userID _ nProjects nActive nDone h6 h7 h8)
      (by rw [hi]
          exact interactionStatsStep_list_error irepo userID _ e h9)

/-- Witness for C1 (amended): in one service both degradable queries fail
and the snapshot is still returned with those two counters zero and the
rest populated; in another a non-degradable query (the pending-task count)
fails and the call returns ErrInternalServer. -/
theorem getUserStats_degrades_only_overdue_and_recent_witness :
    svcDegradedCounters.GetUserStats 1 = Except.ok
      { userStatsInit with TotalTasks := 7, PendingTasks := 3, CompletedTasks := 4 } ∧
    svcPendingCountFailure.GetUserStats 1 = Except.error AppError.internalServer :=
  ⟨(getUserStats_degrades_only_overdue_and_recent svcDegradedCounters 1
      emptyContactRepository taskRepoFailingOverdue emptyProjectRepository
      interactionRepoFailingRecent rfl rfl rfl rfl).1
      0 0 0 7 3 0 0 0 [] rfl rfl rfl rfl rfl rfl rfl rfl rfl,
   (getUserStats_degrades_only_overdue_and_recent svcPendingCountFailure 1
      emptyContactRepository taskRepoFailingPending emptyProjectRepository
      emptyInteractionRepository rfl rfl rfl rfl).2.2.2.2.2.1
      0 0 0 7 RepoErr.err rfl rfl rfl rfl rfl⟩

/-- C2 counterexample: a completed task with createdAt = modifiedAt yields
two events (a Created-slot event whose action is Created, then a Completed
event), not the single folded event the claim asserts. -/
theorem taskEvents_completed_unmodified_two_events :
    (taskEvents taskCompletedUnmodified).map (fun a => a.Action) =
      [ActionCreated, ActionCompleted] ∧
    (taskEvents taskCompletedUnmodified).length ≠ 1 := by decide

/-- C2 (amended): a task record with createdAt = modifiedAt yields a Created
event at createdAt and — exactly when its status is the completed state — an
additional Completed event at modifiedAt; never an Updated event.  The
terminal state is not folded into the Created-slot event: that event's
action is always Created. -/
theorem taskEvents_unmodified_spec (task : Task)
    (h : task.CreatedAt = task.UpdatedAt) :
    (taskEvents task).map (fun a => (a.Action, a.CreatedAt)) =
      if task.Status = TaskStatusCompleted
      then [(ActionCreated, task.CreatedAt), (ActionCompleted, task.UpdatedAt)]
      else [(ActionCreated, task.CreatedAt)] := by
  have hAfter : task.UpdatedAt.After (task.CreatedAt.Add timeMinute) = false := by
    simp only [GoTime.After, GoTime.Add, decide_eq_false_iff_not, not_lt, ← h]
    simp [timeMinute]
  by_cases hst : task.Status = TaskStatusCompleted
  · simp [taskEvents, hAfter, hst, createActivityFromTask_CreatedAt]
  · simp [taskEvents, hAfter, hst, createActivityFromTask_CreatedAt]

/-- Witness for C2 (amended) at the concrete completed unmodified task. -/
theorem taskEvents_unmodified_spec_witness :
    (taskEvents taskCompletedUnmodified).map (fun a => (a.Action, a.CreatedAt)) =
      if taskCompletedUnmodified.Status = TaskStatusCompleted
      then [(ActionCreated, taskCompletedUnmodified.CreatedAt),
            (ActionCompleted, taskCompletedUnmodified.UpdatedAt)]
      else [(ActionCreated, taskCompletedUnmodified.CreatedAt)] :=
  taskEvents_unmodified_spec taskCompletedUnmodified rfl

/-- C3 counterexample: a completed task modified two minutes after creation
yields three events (Created at createdAt, Updated and Completed at
modifiedAt), not the two events the claim asserts. -/
theorem taskEvents_completed_modified_three_events :
    (taskEvents taskCompletedModified).map (fun a => (a.Action, a.CreatedAt.ns)) =
      [(ActionCreated, 0), (ActionUpdated, 120000000000),
       (ActionCompleted, 120000000000)] ∧
    (taskEvents taskCompletedModified).length ≠ 2 := by decide

/-- C3 (amended): a completed task record with modifiedAt = createdAt + 2
minutes yields exactly three events: Created with occurredAt = createdAt,
then Updated and Completed both with occurredAt = modifiedAt. -/
theorem taskEvents_modified_completed_spec (task : Task)
    (h1 : task.UpdatedAt.ns = task.CreatedAt.ns + 2 * timeMinute)
    (h2 : task.Status = TaskStatusCompleted) :
    (taskEvents task).map (fun a => (a.Action, a.CreatedAt)) =
      [(ActionCreated, task.CreatedAt), (ActionUpdated, task.UpdatedAt),
       (ActionCompleted, task.UpdatedAt)] := by
  have hAfter : task.UpdatedAt.After (task.CreatedAt.Add timeMinute) = true := by
    simp only [GoTime.After, GoTime.Add, decide_eq_true_eq, h1, timeMinute]
    omega
  simp [taskEvents, hAfter, h2, createActivityFromTask_CreatedAt]

/-- Witness for C3 (amended) at the concrete completed modified task. -/
theorem taskEvents_modified_completed_spec_witness :
    (taskEvents taskCompletedModified).map (fun a => (a.Action, a.CreatedAt)) =
      [(ActionCreated, taskCompletedModified.CreatedAt),
       (ActionUpdated, taskCompletedModified.UpdatedAt),
       (ActionCompleted, taskCompletedModified.UpdatedAt)] :=
  taskEvents_modified_completed_spec taskCompletedModified (by decide) rfl

/-- C8 counterexample: with limit 0 the engine defaults to 20, so an owner
holding two contact records gets a two-event feed — exceeding the claimed
bound max(0, 1) = 1. -/
theorem getRecentActivities_limit_zero_exceeds_max :
    svcTwoContacts.GetRecentActivities 1 0 = Except.ok
      { Activities := [createActivityFromContact contactBea,
                       createActivityFromContact contactAna], Count := 2 } ∧
    max (0 : Int) 1 <
      (([createActivityFromContact contactBea,
         createActivityFromContact contactAna] : List UserActivity).length : Int) :=
  ⟨rfl, by decide⟩

/-- C8 (amended): the feed length is bounded by the effective limit — the
requested limit when positive, else the default 20 — and an owner with no
records in any of the four sources gets the empty feed with count 0. -/
theorem getRecentActivities_effective_limit_bound (s : userService)
    (userID : Nat) (limit : Int) :
    (∀ r, s.GetRecentActivities userID limit = Except.ok r →
      (r.Activities.length : Int) ≤ (if limit ≤ 0 then (20 : Int) else limit)) ∧
    (∀ irepo trepo prepo crepo,
      s.interactionRepo = some irepo → s.taskRepo = some trepo →
      s.projectRepo = some prepo → s.contactRepo = some crepo →
      irepo.GetRecentByUserID userID 30 ((if limit ≤ 0 then (20 : Int) else limit) * 2) = Except.ok [] →
      trepo.GetByUserID userID { taskListFilterZero with Limit := (if limit ≤ 0 then (20 : Int) else limit) * 2 } = Except.ok [] →
      prepo.GetByUserID userID { projectListFilterZero with Limit := (if limit ≤ 0 then (20 : Int) else limit) * 2 } = Except.ok [] →
      crepo.GetByUserID userID { contactListFilterZero with Limit := (if limit ≤ 0 then (20 : Int) else limit) * 2 } = Except.ok [] →
      s.GetRecentActivities userID limit = Except.ok { Activities := [], Count := 0 }) := by
  have hpos : (0 : Int) < (if limit ≤ 0 then (20 : Int) else limit) := by
    split <;> omega
  constructor
  · intro r h
    obtain ⟨l, rfl⟩ := getRecentActivities_ok_shape h
    exact assembleRecentActivities_length_le _ hpos l
  · intro irepo trepo prepo crepo hri hrt hrp hrc f1 f2 f3 f4
    simp only [userService.GetRecentActivities, hri, hrt, hrp, hrc, f1, f2, f3, f4]
    simp [assembleRecentActivities_nil _ hpos]

/-- Witness for C8 (amended) at the empty service and limit -5. -/
theorem getRecentActivities_effective_limit_bound_witness :
    svcEmpty.GetRecentActivities 1 (-5) = Except.ok { Activities := [], Count := 0 } ∧
    ((({ Activities := [], Count := 0 } : RecentActivityResponse).Activities.length : Int) ≤
      (if (-5 : Int) ≤ 0 then (20 : Int) else -5)) :=
  ⟨(getRecentActivities_effective_limit_bound svcEmpty 1 (-5)).2
      emptyInteractionRepository emptyTaskRepository emptyProjectRepository
      emptyContactRepository rfl rfl rfl rfl rfl rfl rfl rfl,
   (getRecentActivities_effective_limit_bound svcEmpty 1 (-5)).1 _ (by rfl)⟩

/-- C6 counterexample: an owner whose contact (Relationship) source fails
its queries gets an error from GetDashboardData — the failure already hits
step 1's contact counters — not a degraded snapshot. -/
theorem getDashboardData_contact_source_failure_errors :
    svcContactSourceDown.GetDashboardData 1 = Except.error AppError.internalServer := rfl

/-- C6 (amended): a failure of step 1 (statistics) or step 2 (activity feed)
fails the whole dashboard call; when both succeed the call succeeds with
their results, and a failure of any one kind's step-3 recent-items query —
interactions, projects, pending tasks, or contacts — degrades exactly that
kind's list to empty while composition continues. -/
theorem getDashboardData_failure_policy (s : userService) (userID : Nat) :
    (∀ e, s.GetUserStats userID = Except.error e →
      s.GetDashboardData userID = Except.error e) ∧
    (∀ stats e, s.GetUserStats userID = Except.ok stats →
      s.GetRecentActivities userID 10 = Except.error e →
      s.GetDashboardData userID = Except.error e) ∧
    (∀ stats rar, s.GetUserStats userID = Except.ok stats →
      s.GetRecentActivities userID 10 = Except.ok rar →
      ∃ dd, s.GetDashboardData userID = Except.ok dd ∧
        dd.Stats = stats ∧ dd.RecentActivities = rar.Activities ∧
        (∀ irepo e, s.interactionRepo = some irepo →
          irepo.GetByUserID userID { interactionListFilterZero with Limit := 5 } =
            Except.error e →
          dd.RecentInteractions = []) ∧
        (∀ prepo e, s.projectRepo = some prepo →
          prepo.GetByUserID userID
              { projectListFilterZero with Status := "IN_PROGRESS".toList, Limit := 5 } =
            Except.error e →
          dd.RecentProjects = []) ∧
        (∀ trepo e, s.taskRepo = some trepo →
          trepo.GetByUserID userID
              { taskListFilterZero with Status := TaskStatusPending, Limit := 5 } =
            Except.error e →
          dd.RecentPendingTasks = []) ∧
        (∀ crepo e, s.contactRepo = some crepo →
          crepo.GetByUserID userID { contactListFilterZero with Limit := 5 } =
            Except.error e →
          dd.RecentContacts = [])) := by
  refine ⟨fun e he => ?_, fun stats e hs ha => ?_, fun stats rar hs ha => ?_⟩
  · simp only [userService.GetDashboardData, he]
  · simp only [userService.GetDashboardData, hs, ha]
  · simp only [userService.GetDashboardData, hs, ha]
    refine ⟨_, rfl, ?_, ?_, ?_, ?_, ?_, ?_⟩
    · rw [dashboardContactsStep_Stats, dashboardTasksStep_Stats,
          dashboardProjectsStep_Stats, dashboardInteractionsStep_Stats]
    · rw [dashboardContactsStep_RecentActivities,
          dashboardTasksStep_RecentActivities,
          dashboardProjectsStep_RecentActivities,
          dashboardInteractionsStep_RecentActivities]
    · intro irepo e hri hfail
      rw [dashboardContactsStep_RecentInteractions,
          dashboardTasksStep_RecentInteractions,
          dashboardProjectsStep_RecentInteractions, hri,
          dashboardInteractionsStep_error irepo userID _ e hfail]
    · intro prepo e hrp hfail
      rw [dashboardContactsStep_RecentProjects,
          dashboardTasksStep_RecentProjects, hrp,
          dashboardProjectsStep_error prepo userID _ e hfail,
          dashboardInteractionsStep_RecentProjects]
    · intro trepo e hrt hfail
      rw [dashboardContactsStep_RecentPendingTasks, hrt,
          dashboardTasksStep_error trepo userID _ e hfail,
          dashboardProjectsStep_RecentPendingTasks,
          dashboardInteractionsStep_RecentPendingTasks]
    · intro crepo e hcr hfail
      rw [hcr, dashboardContactsStep_error crepo userID _ e hfail,
          dashboardTasksStep_RecentContacts,
          dashboardProjectsStep_RecentContacts,
          dashboardInteractionsStep_RecentContacts]

/-- Witness for C6 (amended): in one service only the dashboard
recent-contacts query fails, in another only the recent-interactions query;
each dashboard still arrives, with exactly that list empty. -/
theorem getDashboardData_failure_policy_witness :
    (svcContactRecentsDown.GetDashboardData 1 = Except.ok dashboardRecentsDownResult ∧
      dashboardRecentsDownResult.RecentContacts = []) ∧
    (svcInteractionRecentsDown.GetDashboardData 1 = Except.ok dashboardRecentsDownResult ∧
      dashboardRecentsDownResult.RecentInteractions = []) := by
  constructor
  · obtain ⟨dd, hdd, -, -, -, -, -, hrc⟩ :=
      (getDashboardData_failure_policy svcContactRecentsDown 1).2.2
        userStatsInit { Activities := [], Count := 0 } rfl rfl
    have hconc : svcContactRecentsDown.GetDashboardData 1 =
        Except.ok dashboardRecentsDownResult := by rfl
    have hddr : dd = dashboardRecentsDownResult := Except.ok.inj (hdd.symm.trans hconc)
    subst hddr
    exact ⟨hdd, hrc contactRepoFailingRecents RepoErr.err rfl rfl⟩
  · obtain ⟨dd, hdd, -, -, hri, -, -, -⟩ :=
      (getDashboardData_failure_policy svcInteractionRecentsDown 1).2.2
        userStatsInit { Activities := [], Count := 0 } rfl rfl
    have hconc : svcInteractionRecentsDown.GetDashboardData 1 =
        Except.ok dashboardRecentsDownResult := by rfl
    have hddr : dd = dashboardRecentsDownResult := Except.ok.inj (hdd.symm.trans hconc)
    subst hddr
    exact ⟨hdd, hri interactionRepoFailingDashboard RepoErr.err rfl rfl⟩

end CRM
